import Mathlib

/-!
Shallow embedding of the value-conversion library in src/lib/index.ts
(a WebIDL-style coercion layer written in TypeScript).

Modelling conventions:
* Host numbers (doubles) are modelled as the inductive JsNum: NaN, the two
  infinities, negative zero, and finite values as exact rationals.  Every
  arithmetic step the claims exercise (truncation, floor, round, remainder,
  comparisons) is exact on the rationals that occur, so the rational model
  is faithful on those paths.
* Rational arithmetic inside the model is written with mkRat / Rat.divInt
  and integer arithmetic on numerators and denominators (the helpers qAdd,
  qSub, qMul, qDivQ below), which the kernel can evaluate; supporting
  lemmas prove these helpers equal the ordinary field operations.
* Host values are the inductive JSValue.  Buffer-like values carry their
  classification (non-shared buffer with a detached flag, shared buffer,
  data view over a shared or detached backing buffer) directly, the way the
  probing helpers in the source observe them.
* Fallible code returns Except JsError; JsError records the error kind
  (TypeError or ReferenceError) and the exact message text.
-/

inductive ErrKind where
  | typeError
  | referenceError
deriving DecidableEq

structure JsError where
  kind : ErrKind
  message : String
deriving DecidableEq

/-- An engine-raised error (no context prefix), as opposed to the
makeException errors built by the library. -/
def nativeError (kind : ErrKind) (message : String) : JsError :=
  ⟨kind, message⟩

/-- A JavaScript number: NaN, the infinities, negative zero, or a finite
value (an exact rational; fin 0 is positive zero). -/
inductive JsNum where
  | nan
  | inf
  | negInf
  | negZero
  | fin (q : ℚ)
deriving DecidableEq

/-- The host values the claims exercise.  Buffer-like values carry the
classification that the probing helpers of the source observe per call. -/
inductive JSValue where
  | num (x : JsNum)
  | bigintV (z : ℤ)
  | str (units : List ℕ)
  | sym
  | boolV (b : Bool)
  | nullV
  | undef
  | arrayBuffer (detached : Bool)
  | sharedArrayBuffer
  | dataView (sharedBacking : Bool) (detachedBacking : Bool)
  | obj
deriving DecidableEq

/-- The conversion configuration record.  The globals field models whether
an alternate-realm globals object was supplied; its constructors are
behaviourally identical to the ambient ones. -/
structure Options where
  enforceRange : Bool := false
  clamp : Bool := false
  treatNullAsEmptyString : Bool := false
  allowShared : Bool := false
  context : String := ""
  globals : Bool := false

/-! Kernel-evaluable rational arithmetic.  mkRat and Rat.divInt reduce in
the kernel, while the field operations of ℚ do not; the converters below
therefore use these helpers, and the lemmas qAdd_eq, qSub_eq, qMul_eq,
qDivQ_eq identify them with the field operations. -/

def qAdd (a b : ℚ) : ℚ := mkRat (a.num * b.den + b.num * a.den) (a.den * b.den)

def qSub (a b : ℚ) : ℚ := mkRat (a.num * b.den - b.num * a.den) (a.den * b.den)

def qMul (a b : ℚ) : ℚ := mkRat (a.num * b.num) (a.den * b.den)

def qDivQ (a b : ℚ) : ℚ := Rat.divInt (a.num * b.den) (b.num * a.den)

/-- Truncation toward zero of a rational, as an integer. -/
def ratTrunc (q : ℚ) : ℤ := if 0 ≤ q then ⌊q⌋ else -⌊-q⌋

/-- The finite value of a JsNum (negative zero counts as 0); only applied
under guards that exclude NaN and the infinities. -/
def qOf : JsNum → ℚ
  | .fin q => q
  | _ => 0

def jsIsNaN : JsNum → Bool
  | .nan => true
  | _ => false

def jsIsFinite : JsNum → Bool
  | .fin _ => true
  | .negZero => true
  | _ => false

/-- The strict less-than comparison on numbers (false on NaN, negative zero
compares as zero). -/
def jsLtNum : JsNum → JsNum → Bool
  | .nan, _ => false
  | _, .nan => false
  | .inf, _ => false
  | _, .inf => true
  | .negInf, .negInf => false
  | .negInf, _ => true
  | _, .negInf => false
  | a, b => decide (qOf a < qOf b)

def jsGtNum (a b : JsNum) : Bool := jsLtNum b a

/-- Strict equality (triple equals) on numbers: NaN equals nothing and
negative zero equals zero. -/
def jsStrictEq : JsNum → JsNum → Bool
  | .nan, _ => false
  | _, .nan => false
  | .inf, .inf => true
  | .negInf, .negInf => true
  | .negZero, .negZero => true
  | .negZero, .fin q => decide (q = 0)
  | .fin q, .negZero => decide (q = 0)
  | .fin a, .fin b => decide (a = b)
  | _, _ => false

/-- A total order on non-NaN numbers in which negative zero sits strictly
below positive zero, as used by Math.min and Math.max. -/
def jsNumLeTotal : JsNum → JsNum → Bool
  | .negInf, _ => true
  | _, .negInf => false
  | _, .inf => true
  | .inf, _ => false
  | .negZero, .negZero => true
  | .negZero, .fin q => decide (0 ≤ q)
  | .fin q, .negZero => decide (q < 0)
  | .fin a, .fin b => decide (a ≤ b)
  | _, _ => true

/-- Mixed comparison of a number with a bigint (the relational operators
accept the mix without throwing; NaN compares false). -/
def numLtInt (x : JsNum) (n : ℤ) : Bool :=
  match x with
  | .nan => false
  | .inf => false
  | .negInf => true
  | v => decide (qOf v < (n : ℚ))

def numGtInt (x : JsNum) (n : ℤ) : Bool :=
  match x with
  | .nan => false
  | .inf => true
  | .negInf => false
  | v => decide ((n : ℚ) < qOf v)

def numGeInt (x : JsNum) (n : ℤ) : Bool :=
  match x with
  | .nan => false
  | .inf => true
  | .negInf => false
  | v => decide ((n : ℚ) ≤ qOf v)

def numLeInt (x : JsNum) (n : ℤ) : Bool :=
  match x with
  | .nan => false
  | .inf => false
  | .negInf => true
  | v => decide (qOf v ≤ (n : ℚ))

/-- Math.trunc: drop the fractional part toward zero.  A negative value
strictly between -1 and 0 truncates to negative zero. -/
def jsTrunc : JsNum → JsNum
  | .fin q => if q < 0 ∧ -1 < q then .negZero else .fin (ratTrunc q)
  | x => x

/-- Math.floor (negative zero and the special values pass through). -/
def jsFloor : JsNum → JsNum
  | .fin q => .fin ⌊q⌋
  | x => x

/-- Math.round: floor of x plus one half; a result of zero coming from a
negative argument is negative zero. -/
def jsRound : JsNum → JsNum
  | .fin q =>
    let r := ⌊qAdd q (mkRat 1 2)⌋
    if r = 0 ∧ q < 0 then .negZero else .fin r
  | x => x

/-- Subtraction on numbers, with the IEEE zero-sign rule: a zero result is
negative zero exactly when a negative zero loses a zero. -/
def jsSub : JsNum → JsNum → JsNum
  | .nan, _ => .nan
  | _, .nan => .nan
  | .inf, .inf => .nan
  | .inf, _ => .inf
  | _, .inf => .negInf
  | .negInf, .negInf => .nan
  | .negInf, _ => .negInf
  | _, .negInf => .inf
  | a, b =>
    let r := qSub (qOf a) (qOf b)
    if r = 0 then
      (match a, b with
       | .negZero, .fin _ => .negZero
       | _, _ => .fin 0)
    else .fin r

/-- Addition on numbers (zero-sign rule: only negative zero plus negative
zero is negative zero). -/
def jsAdd : JsNum → JsNum → JsNum
  | .nan, _ => .nan
  | _, .nan => .nan
  | .inf, .negInf => .nan
  | .negInf, .inf => .nan
  | .inf, _ => .inf
  | _, .inf => .inf
  | .negInf, _ => .negInf
  | _, .negInf => .negInf
  | a, b =>
    let r := qAdd (qOf a) (qOf b)
    if r = 0 then
      (match a, b with
       | .negZero, .negZero => .negZero
       | _, _ => .fin 0)
    else .fin r

/-- The remainder operator on numbers (sign follows the dividend; a zero
result keeps the sign of the dividend). -/
def jsRem : JsNum → JsNum → JsNum
  | .nan, _ => .nan
  | _, .nan => .nan
  | .inf, _ => .nan
  | .negInf, _ => .nan
  | x, .inf => x
  | x, .negInf => x
  | x, y =>
    if qOf y = 0 then .nan
    else
      let a := qOf x
      let b := qOf y
      let t : ℤ := ratTrunc (qDivQ a b)
      let r := qSub a (qMul b (t : ℚ))
      if r = 0 then (if x = .negZero ∨ a < 0 then .negZero else .fin 0)
      else .fin r

/-- ToInt32 (the bar-zero coercion): truncate, then wrap into the signed
32-bit window; NaN, the infinities and negative zero give 0. -/
def toInt32 : JsNum → ℤ
  | .fin q =>
    let n := ratTrunc q % 2 ^ 32
    if 2 ^ 31 ≤ n then n - 2 ^ 32 else n
  | _ => 0

/-! The library source, function by function. -/

/-- censorNegativeZero from the source: x === 0 ? 0 : x. -/
def censorNegativeZero : JsNum → JsNum
  | .negZero => .fin 0
  | x => x

/-- An argument of Math.min / Math.max at the call sites of clamp: either a
number or a bigint (the integer converters pass bigint bounds). -/
inductive NumOrBig where
  | n (x : JsNum)
  | b (z : ℤ)

/-- ToNumber as applied by Math.min and Math.max to each argument; a bigint
argument makes it throw a TypeError. -/
def mathToNumber : NumOrBig → Except JsError JsNum
  | .n x => .ok x
  | .b _ => .error (nativeError .typeError "Cannot convert a BigInt value to a number")

def jsMax2 (x y : JsNum) : JsNum :=
  if jsIsNaN x || jsIsNaN y then .nan
  else if jsNumLeTotal x y then y else x

def jsMin2 (x y : JsNum) : JsNum :=
  if jsIsNaN x || jsIsNaN y then .nan
  else if jsNumLeTotal x y then x else y

def mathMax (a b : NumOrBig) : Except JsError JsNum := do
  let x ← mathToNumber a
  let y ← mathToNumber b
  pure (jsMax2 x y)

def mathMin (a b : NumOrBig) : Except JsError JsNum := do
  let x ← mathToNumber a
  let y ← mathToNumber b
  pure (jsMin2 x y)

/-- clamp from the source: min(max(x, lowerBound), upperBound).  The bounds
reaching this function from createIntegerConversion are bigints, and
Math.max / Math.min throw on bigint arguments. -/
def clamp (x lowerBound upperBound : NumOrBig) : Except JsError JsNum := do
  let m ← mathMax x lowerBound
  mathMin (.n m) upperBound

/-- makeException from the source.  Every call site passes TypeError, and an
alternate-realm TypeError constructor behaves identically, so the kind is
always typeError; the message is the context (defaulting to the word Value)
followed by the detail and a period. -/
def makeException (message : String) (opts : Options) : JsError :=
  ⟨.typeError,
    (if opts.context = "" then "Value" else opts.context) ++ " " ++ message ++ "."⟩

/-- ToNumber on a string.  Only the plain decimal-integer fragment of the
host StringToNumber algorithm is modelled (an optional minus sign followed
by ASCII digits, and the empty string, which coerces to 0); every other
string is modelled as NaN.  No claim coerces a string to a number. -/
def isDigitUnit (c : ℕ) : Bool := decide (0x30 ≤ c ∧ c ≤ 0x39)

def digitsToNat (l : List ℕ) : ℕ := l.foldl (fun acc c => acc * 10 + (c - 0x30)) 0

def stringToNum (s : List ℕ) : JsNum :=
  match s with
  | [] => .fin 0
  | 0x2D :: rest =>
    if rest ≠ [] ∧ rest.all isDigitUnit then .fin (-(digitsToNat rest : ℚ)) else .nan
  | _ => if s.all isDigitUnit then .fin (digitsToNat s) else .nan

/-- The unary plus coercion (ToNumber) on each modelled value kind.  Plain
objects and buffer-like values coerce through ToPrimitive to a non-numeric
string, hence NaN. -/
def jsToNumberPrim : JSValue → Except JsError JsNum
  | .num x => .ok x
  | .bigintV _ => .error (nativeError .typeError "Cannot convert a BigInt value to a number")
  | .sym => .error (nativeError .typeError "Cannot convert a Symbol value to a number")
  | .boolV b => .ok (.fin (if b then 1 else 0))
  | .nullV => .ok (.fin 0)
  | .undef => .ok .nan
  | .str s => .ok (stringToNum s)
  | _ => .ok .nan

/-- toNumber from the source: without an alternate realm it is the unary
plus coercion; with one, a bigint is rejected explicitly and everything
else goes through the (behaviourally identical) realm Number constructor. -/
def toNumber (value : JSValue) (opts : Options) : Except JsError JsNum :=
  if !opts.globals then jsToNumberPrim value
  else
    match value with
    | .bigintV _ => .error (nativeError .typeError "Cannot convert a BigInt value to a number")
    | v => jsToNumberPrim v

/-- evenRound from the source: round to the nearest integer, using floor for
the two halfway cases whose truncation has an even low bit. -/
def evenRound (x : JsNum) : JsNum :=
  let int := jsTrunc x
  let decimals := jsSub x int
  let andBit := toInt32 int % 2
  let useFloor :=
    (jsGtNum x (.fin 0) && jsStrictEq decimals (.fin (mkRat 1 2)) && decide (andBit = 0)) ||
    (jsLtNum x (.fin 0) && jsStrictEq decimals (.fin (-(mkRat 1 2))) && decide (andBit = 1))
  censorNegativeZero (if useFloor then jsFloor x else jsRound x)

/-- integerPart from the source: truncate toward zero and censor negative
zero. -/
def integerPart (n : JsNum) : JsNum := censorNegativeZero (jsTrunc n)

inductive Sign where
  | Negative
  | Positive
deriving DecidableEq

/-- sign from the source.  Its body is the ternary x < 0 ? Negative :
Positive, but the bare identifiers Negative and Positive are not bound
anywhere in the module (the enum members are only reachable as
Sign.Negative and Sign.Positive), so evaluating either branch of the
ternary throws a ReferenceError at run time. -/
def sign (x : JsNum) : Except JsError Sign :=
  if jsLtNum x (.fin 0) then .error (nativeError .referenceError "Negative is not defined")
  else .error (nativeError .referenceError "Positive is not defined")

/-- modulo from the source: the remainder, corrected by one addend of y when
its sign disagrees with the sign of y.  Both calls to sign throw (see
sign), so modulo always propagates a ReferenceError. -/
def modulo (x y : JsNum) : Except JsError JsNum := do
  let signMightNotMatch := jsRem x y
  let sy ← sign y
  let sm ← sign signMightNotMatch
  if sy ≠ sm then pure (jsAdd signMightNotMatch y)
  else pure signMightNotMatch

def maxSafeInteger : ℤ := 2 ^ 53 - 1

def minSafeInteger : ℤ := -(2 ^ 53 - 1)

/-- createIntegerConversion from the source, for bit widths 8, 16, 32 (the
64-bit case of its bounds table is dead code but embedded as written,
with the swapped bounds).  The bounds are bigints; the comparisons mix
numbers and bigints (allowed), while the clamp branch hands the bigint
bounds to Math.max / Math.min (which throw) and the signed wraparound
branch subtracts a bigint from a number (which throws). -/
def createIntegerConversion (bitLength : ℕ) (unsigned : Bool)
    (V : JSValue) (opts : Options) : Except JsError JSValue :=
  let isSigned : Bool := !unsigned
  let twoToTheBitLength : ℤ := 2 ^ bitLength
  let twoToOneLessThanTheBitLength : ℤ := twoToTheBitLength / 2
  let bounds : ℤ × ℤ :=
    if bitLength = 64 then
      (maxSafeInteger, if unsigned then 0 else minSafeInteger)
    else if unsigned then (0, twoToTheBitLength - 1)
    else (-twoToOneLessThanTheBitLength, twoToOneLessThanTheBitLength - 1)
  let lowerBound : ℤ := bounds.1
  let upperBound : ℤ := bounds.2
  match toNumber V opts with
  | .error e => .error e
  | .ok x0 =>
    let x := censorNegativeZero x0
    if opts.enforceRange then
      if !jsIsFinite x then .error (makeException "is not a finite number" opts)
      else
        let x := integerPart x
        if numLtInt x lowerBound || numGtInt x upperBound then
          .error (makeException
            ("is outside the accepted range of " ++ toString lowerBound ++
             " to " ++ toString upperBound ++ ", inclusive") opts)
        else .ok (.num x)
    else if !jsIsNaN x && opts.clamp then
      match clamp (.n x) (.b lowerBound) (.b upperBound) with
      | .error e => .error e
      | .ok xc => .ok (.num (evenRound xc))
    else if !jsIsFinite x || jsStrictEq x (.fin 0) then .ok (.num (.fin 0))
    else
      let x := integerPart x
      if numGeInt x lowerBound && numLeInt x upperBound then .ok (.num x)
      else
        match modulo x (.fin (twoToTheBitLength : ℚ)) with
        | .error e => .error e
        | .ok x2 =>
          if isSigned && numGeInt x2 twoToOneLessThanTheBitLength then
            -- x - twoToTheBitLength: a number minus a bigint throws.
            .error (nativeError .typeError
              "Cannot mix BigInt and other types, use explicit conversions")
          else .ok (.num x2)

/-- BigInt.asUintN. -/
def asUintN (bits : ℕ) (z : ℤ) : ℤ := z % 2 ^ bits

/-- BigInt.asIntN. -/
def asIntN (bits : ℕ) (z : ℤ) : ℤ :=
  let m := z % 2 ^ bits
  if 2 ^ (bits - 1) ≤ m then m - 2 ^ bits else m

/-- BigInt(n) for a number argument.  In the source it is only applied to
integerPart(x) with x finite, so the argument is always a finite integral
number; the other cases would throw and are unreachable (modelled as 0). -/
def bigIntOfNumber : JsNum → ℤ
  | .fin q => ratTrunc q
  | _ => 0

/-- createLongLongConversion from the source.  Its bounds are plain numbers
(so its clamp branch works), and its default branch converts the truncated
number to a bigint and wraps with BigInt.asIntN / BigInt.asUintN, returning
that bigint without converting back to a number. -/
def createLongLongConversion (bitLength : ℕ) (unsigned : Bool)
    (V : JSValue) (opts : Options) : Except JsError JSValue :=
  let upperBound : ℤ := maxSafeInteger
  let lowerBound : ℤ := if unsigned then 0 else minSafeInteger
  match toNumber V opts with
  | .error e => .error e
  | .ok x0 =>
    let x := censorNegativeZero x0
    if opts.enforceRange then
      if !jsIsFinite x then .error (makeException "is not a finite number" opts)
      else
        let x := integerPart x
        if numLtInt x lowerBound || numGtInt x upperBound then
          .error (makeException
            ("is outside the accepted range of " ++ toString lowerBound ++
             " to " ++ toString upperBound ++ ", inclusive") opts)
        else .ok (.num x)
    else if !jsIsNaN x && opts.clamp then
      match clamp (.n x) (.n (.fin (lowerBound : ℚ))) (.n (.fin (upperBound : ℚ))) with
      | .error e => .error e
      | .ok xc => .ok (.num (evenRound xc))
    else if !jsIsFinite x || jsStrictEq x (.fin 0) then .ok (.num (.fin 0))
    else
      let xBigInt := bigIntOfNumber (integerPart x)
      .ok (.bigintV (if unsigned then asUintN bitLength xBigInt else asIntN bitLength xBigInt))

def export_byte := createIntegerConversion 8 false

def export_octet := createIntegerConversion 8 true

def export_short := createIntegerConversion 16 false

def export_unsigned_short := createIntegerConversion 16 true

def export_long := createIntegerConversion 32 false

def export_unsigned_long := createIntegerConversion 32 true

def export_long_long := createLongLongConversion 64 false

def export_unsigned_long_long := createLongLongConversion 64 true

def export_double (V : JSValue) (opts : Options) : Except JsError JSValue :=
  match toNumber V opts with
  | .error e => .error e
  | .ok x =>
    if !jsIsFinite x then
      .error (makeException "is not a finite floating-point value" opts)
    else .ok (.num x)

def export_unrestricted_double (V : JSValue) (opts : Options) : Except JsError JSValue :=
  match toNumber V opts with
  | .error e => .error e
  | .ok x => .ok (.num x)

/-- Round half to even of a rational, as used by the significand rounding of
single-precision narrowing. -/
def roundHalfEvenInt (q : ℚ) : ℤ :=
  let f := ⌊q⌋
  if q - f < 1 / 2 then f
  else if 1 / 2 < q - f then f + 1
  else if f % 2 = 0 then f else f + 1

def maxFloat32 : ℚ := (2 ^ 24 - 1) * 2 ^ 104

/-- Math.fround on an exact rational: round the significand to 24 bits
(half to even) at the exponent of the value, flushing to the subnormal grid
below 2 to the -126 and overflowing to an infinity beyond the largest
finite single-precision value.  A host primitive, modelled directly; no
claim evaluates it. -/
def froundQ (q : ℚ) : JsNum :=
  if q = 0 then .fin 0
  else
    let e : ℤ := max (Int.log 2 |q|) (-126)
    let scaled : ℚ := |q| * 2 ^ (23 - e)
    let r : ℚ := (roundHalfEvenInt scaled : ℚ) * 2 ^ (e - 23)
    if maxFloat32 < r then (if q < 0 then .negInf else .inf)
    else if q < 0 then (if r = 0 then .negZero else .fin (-r))
    else .fin r

def fround : JsNum → JsNum
  | .fin q => froundQ q
  | x => x

def export_float (V : JSValue) (opts : Options) : Except JsError JSValue :=
  match toNumber V opts with
  | .error e => .error e
  | .ok x =>
    if !jsIsFinite x then
      .error (makeException "is not a finite floating-point value" opts)
    else if x = .negZero then .ok (.num .negZero)
    else
      let y := fround x
      if !jsIsFinite y then
        .error (makeException "is outside the range of a single-precision floating-point value" opts)
      else .ok (.num y)

def export_unrestricted_float (V : JSValue) (opts : Options) : Except JsError JSValue :=
  match toNumber V opts with
  | .error e => .error e
  | .ok x =>
    if jsIsNaN x then .ok (.num x)
    else if x = .negZero then .ok (.num .negZero)
    else .ok (.num (fround x))

def strUnits (s : String) : List ℕ := s.toList.map Char.toNat

def intUnits (z : ℤ) : List ℕ := strUnits (toString z)

/-- The host ToString on the modelled values, as a list of UTF-16 code
units.  The textual form of a non-integral finite number (the shortest
round-trip decimal) is modelled only up to its integer part; no claim
stringifies a non-integral number.  A symbol never reaches this function
(its callers reject symbols first). -/
def jsToString : JSValue → List ℕ
  | .str s => s
  | .boolV true => strUnits "true"
  | .boolV false => strUnits "false"
  | .nullV => strUnits "null"
  | .undef => strUnits "undefined"
  | .bigintV z => intUnits z
  | .num .nan => strUnits "NaN"
  | .num .inf => strUnits "Infinity"
  | .num .negInf => strUnits "-Infinity"
  | .num .negZero => strUnits "0"
  | .num (.fin q) => intUnits (ratTrunc q)
  | .sym => []
  | _ => strUnits "[object Object]"

/-- export_DOMString from the source; it returns a host string (a list of
code units). -/
def export_DOMString (V : JSValue) (opts : Options) : Except JsError (List ℕ) :=
  if V = .nullV ∧ opts.treatNullAsEmptyString then .ok []
  else if V = .sym then
    .error (makeException "is a symbol, which cannot be converted to a string" opts)
  else .ok (jsToString V)

/-- export_USVString from the source.  The loop body reads the bare
identifier charCodeAt, which is never bound in the module (only
codePointAt and the string iterator are destructured from
String.prototype), so the first loop iteration throws a ReferenceError;
only a string of length zero survives the loop and is returned (as the
join of the empty array). -/
def export_USVString (V : JSValue) (opts : Options) : Except JsError JSValue :=
  match export_DOMString V opts with
  | .error e => .error e
  | .ok S =>
    if S.length = 0 then .ok (.str [])
    else .error (nativeError .referenceError "charCodeAt is not defined")

/-- isNonSharedArrayBuffer from the source: reading byteLength through the
ArrayBuffer prototype getter succeeds exactly on non-shared buffers,
detached or not. -/
def isNonSharedArrayBuffer : JSValue → Bool
  | .arrayBuffer _ => true
  | _ => false

/-- isSharedArrayBuffer from the source: the SharedArrayBuffer byteLength
getter succeeds exactly on shared buffers. -/
def isSharedArrayBuffer : JSValue → Bool
  | .sharedArrayBuffer => true
  | _ => false

/-- isArrayBufferDetached from the source: constructing a Uint8Array over
the value fails exactly on a detached non-shared buffer. -/
def isArrayBufferDetached : JSValue → Bool
  | .arrayBuffer detached => detached
  | _ => false

/-- export_ArrayBuffer from the source, with its guard structure exactly as
written: when the value is not a non-shared buffer, the inner branch throws
for a non-buffer under allowShared, and the unconditional throw that
follows rejects everything else that reaches it, including a shared buffer
under allowShared. -/
def export_ArrayBuffer (V : JSValue) (opts : Options) : Except JsError JSValue :=
  if !isNonSharedArrayBuffer V then
    if opts.allowShared && !isSharedArrayBuffer V then
      .error (makeException "is not an ArrayBuffer or SharedArrayBuffer" opts)
    else
      .error (makeException "is not an ArrayBuffer" opts)
  else if isArrayBufferDetached V then
    .error (makeException "is a detached ArrayBuffer" opts)
  else .ok V

/-- Whether a modelled value is callable.  None of the modelled value kinds
is a function, so this is constantly false. -/
def jsIsCallable : JSValue → Bool := fun _ => false

/-- export_DataView from the source.  Its probe is written
apply(V, dvByteLengthGetter, emptyList), passing V as the target of
Reflect.apply (the arguments are swapped), so the probe throws a TypeError
whenever V is not callable - in particular for every genuine DataView -
and the catch turns that into the TypeError saying it is not a DataView.
The shared-backing and detached-backing checks below the probe mirror the
rest of the source and are unreachable for the modelled values. -/
def export_DataView (V : JSValue) (opts : Options) : Except JsError JSValue :=
  if !jsIsCallable V then .error (makeException "is not a DataView" opts)
  else
    let sharedBacking := match V with | .dataView s _ => s | _ => false
    let detachedBacking := match V with | .dataView _ d => d | _ => false
    if !opts.allowShared && sharedBacking then
      .error (makeException "is backed by a SharedArrayBuffer, which is not allowed" opts)
    else if detachedBacking then
      .error (makeException "is backed by a detached ArrayBuffer" opts)
    else .ok V

/-- The representable bounds of the 8, 16 and 32 bit integer kinds, for
stating range hypotheses about createIntegerConversion. -/
def intLowerBound (b : ℕ) (u : Bool) : ℤ := if u then 0 else -(2 ^ (b - 1))

def intUpperBound (b : ℕ) (u : Bool) : ℤ := if u then 2 ^ b - 1 else 2 ^ (b - 1) - 1

/-! Supporting lemmas: the mkRat-based helpers agree with the field
operations of ℚ, and truncation behaves as expected on integers. -/

theorem qAdd_eq (a b : ℚ) : qAdd a b = a + b := by
  have ha : ((a.den : ℚ)) ≠ 0 := by exact_mod_cast a.den_nz
  have hb : ((b.den : ℚ)) ≠ 0 := by exact_mod_cast b.den_nz
  unfold qAdd
  rw [Rat.mkRat_eq_div]
  conv_rhs => rw [← Rat.num_div_den a, ← Rat.num_div_den b]
  rw [div_add_div _ _ ha hb]
  push_cast
  ring_nf

theorem qSub_eq (a b : ℚ) : qSub a b = a - b := by
  have ha : ((a.den : ℚ)) ≠ 0 := by exact_mod_cast a.den_nz
  have hb : ((b.den : ℚ)) ≠ 0 := by exact_mod_cast b.den_nz
  unfold qSub
  rw [Rat.mkRat_eq_div]
  conv_rhs => rw [← Rat.num_div_den a, ← Rat.num_div_den b]
  rw [div_sub_div _ _ ha hb]
  push_cast
  ring_nf

theorem qMul_eq (a b : ℚ) : qMul a b = a * b := by
  have ha : ((a.den : ℚ)) ≠ 0 := by exact_mod_cast a.den_nz
  have hb : ((b.den : ℚ)) ≠ 0 := by exact_mod_cast b.den_nz
  unfold qMul
  rw [Rat.mkRat_eq_div]
  conv_rhs => rw [← Rat.num_div_den a, ← Rat.num_div_den b]
  rw [div_mul_div_comm]
  push_cast
  ring_nf

theorem qDivQ_eq (a b : ℚ) (hb : b ≠ 0) : qDivQ a b = a / b := by
  have hda : ((a.den : ℚ)) ≠ 0 := by exact_mod_cast a.den_nz
  have hdb : ((b.den : ℚ)) ≠ 0 := by exact_mod_cast b.den_nz
  have hnb : ((b.num : ℚ)) ≠ 0 := by
    exact_mod_cast Rat.num_ne_zero.mpr hb
  unfold qDivQ
  rw [Rat.divInt_eq_div]
  conv_rhs => rw [← Rat.num_div_den a, ← Rat.num_div_den b]
  rw [div_div_div_comm]
  push_cast
  field_simp

theorem qDivQ_eq_witness : qDivQ (mkRat 1 2) (mkRat 3 1) = mkRat 1 2 / mkRat 3 1 :=
  qDivQ_eq (mkRat 1 2) (mkRat 3 1) (by decide)

theorem ratTrunc_intCast (x : ℤ) : ratTrunc ((x : ℚ)) = x := by
  unfold ratTrunc
  by_cases h : (0 : ℚ) ≤ (x : ℚ)
  · rw [if_pos h, Int.floor_intCast]
  · rw [if_neg h, show (-(x:ℚ)) = ((-x : ℤ) : ℚ) by push_cast; ring, Int.floor_intCast]
    omega

theorem integerPart_intCast (x : ℤ) : integerPart (.fin (x : ℚ)) = .fin ((x : ℚ)) := by
  have h : ¬((x : ℚ) < 0 ∧ -1 < (x : ℚ)) := by
    rintro ⟨h1, h2⟩
    have h1' : x < 0 := by exact_mod_cast h1
    have h2' : (-1 : ℤ) < x := by exact_mod_cast h2
    omega
  simp only [integerPart, jsTrunc]
  rw [if_neg h, ratTrunc_intCast]
  rfl

theorem bigIntOfNumber_integerPart (q : ℚ) :
    bigIntOfNumber (integerPart (.fin q)) = ratTrunc q := by
  by_cases h : q < 0 ∧ -1 < q
  · have h0 : ⌊-q⌋ = 0 := by
      rw [Int.floor_eq_zero_iff, Set.mem_Ico]
      exact ⟨by linarith [h.1], by linarith [h.2]⟩
    have ht : ratTrunc q = 0 := by
      unfold ratTrunc
      rw [if_neg (not_le.mpr h.1), h0]
      rfl
    rw [ht]
    simp only [integerPart, jsTrunc]
    rw [if_pos h]
    show ratTrunc 0 = 0
    unfold ratTrunc
    norm_num
  · simp only [integerPart, jsTrunc]
    rw [if_neg h]
    show ratTrunc ((ratTrunc q : ℤ) : ℚ) = ratTrunc q
    rw [ratTrunc_intCast]

/-- Helper for the idempotence claim: an 8, 16 or 32 bit integer conversion
under default options maps an already in-range integer to itself. -/
theorem intConv_inRange_fix (b : ℕ) (u : Bool) (x : ℤ)
    (hb : b = 8 ∨ b = 16 ∨ b = 32)
    (hlo : intLowerBound b u ≤ x) (hhi : x ≤ intUpperBound b u) :
    createIntegerConversion b u (.num (.fin (x : ℚ))) {} = .ok (.num (.fin (x : ℚ))) := by
  by_cases hx : x = 0
  · subst hx
    rcases hb with hb | hb | hb <;> subst hb <;> cases u <;>
      simp [createIntegerConversion, toNumber, jsToNumberPrim, censorNegativeZero,
            jsIsNaN, jsIsFinite, jsStrictEq]
  · have hloQ : ((intLowerBound b u : ℤ) : ℚ) ≤ (x : ℚ) := by exact_mod_cast hlo
    have hhiQ : ((x : ℚ)) ≤ ((intUpperBound b u : ℤ) : ℚ) := by exact_mod_cast hhi
    rcases hb with hb | hb | hb <;> subst hb <;> cases u <;>
      norm_num [intLowerBound, intUpperBound] at hloQ hhiQ <;>
      norm_num [createIntegerConversion, toNumber, jsToNumberPrim, censorNegativeZero,
            jsIsNaN, jsIsFinite, jsStrictEq, integerPart_intCast, numGeInt, numLeInt,
            qOf, hx, hloQ, hhiQ]

/-! The claims. -/

/-- C1: the spec says an 8-bit unsigned converter with clamp set saturates
into the bounds and rounds half to even (300 to 255, 127.5 to 128, 126.5 to
126).  In the code the bounds of createIntegerConversion are bigints and the
clamp branch hands them to Math.max / Math.min inside clamp, whose ToNumber
coercion throws on a bigint, so every clamped 8/16/32-bit conversion fails
with a TypeError instead of saturating.  This theorem evaluates the code at
the three inputs of the claim (127.5 and 126.5 written as mkRat 255 2 and
mkRat 253 2). -/
theorem octet_clamp_throws_on_bigint_bounds :
    export_octet (.num (.fin 300)) { clamp := true } =
      .error (nativeError .typeError "Cannot convert a BigInt value to a number") ∧
    export_octet (.num (.fin (mkRat 255 2))) { clamp := true } =
      .error (nativeError .typeError "Cannot convert a BigInt value to a number") ∧
    export_octet (.num (.fin (mkRat 253 2))) { clamp := true } =
      .error (nativeError .typeError "Cannot convert a BigInt value to a number") :=
  ⟨rfl, rfl, rfl⟩

/-- C2: the spec says the buffer-only converter rejects a shared buffer
under default options and accepts it under allowShared.  The code rejects
the shared buffer in both configurations: when the value is not a
non-shared buffer and allowShared is set, the inner guard only catches
values that are not shared buffers either, and control falls through to the
unconditional TypeError saying the value is not an ArrayBuffer.  A genuine
non-shared buffer is still accepted (third conjunct). -/
theorem arrayBuffer_rejects_shared_even_when_allowed :
    export_ArrayBuffer .sharedArrayBuffer {} =
      .error ⟨.typeError, "Value is not an ArrayBuffer."⟩ ∧
    export_ArrayBuffer .sharedArrayBuffer { allowShared := true } =
      .error ⟨.typeError, "Value is not an ArrayBuffer."⟩ ∧
    export_ArrayBuffer (.arrayBuffer false) { allowShared := true } =
      .ok (.arrayBuffer false) :=
  ⟨rfl, rfl, rfl⟩

/-- C3: the spec says the scalar-value-string converter rebuilds the string
with surrogate repair (a lone leading surrogate followed by a non-surrogate
becomes U+FFFD with the next character kept).  In the code the loop body of
export_USVString reads the bare identifier charCodeAt, which is never bound
in the module, so the first iteration throws a ReferenceError for every
nonempty string; the two evaluations are a lone high surrogate followed by
the letter A, and a valid surrogate pair. -/
theorem usvString_throws_referenceError :
    export_USVString (.str [0xD800, 0x41]) {} =
      .error (nativeError .referenceError "charCodeAt is not defined") ∧
    export_USVString (.str [0xD83D, 0xDE00]) {} =
      .error (nativeError .referenceError "charCodeAt is not defined") :=
  ⟨rfl, rfl⟩

/-- C4: the spec says the DataView converter returns a genuine DataView
(non-shared, non-detached backing buffer) unchanged under default options.
In the code the byteLength probe is written apply(V, dvByteLengthGetter,
emptyList), passing the DataView as the target of Reflect.apply, which
throws because a DataView is not callable; the catch converts that into the
TypeError saying the value is not a DataView, so every genuine DataView is
rejected. -/
theorem dataView_probe_always_throws :
    export_DataView (.dataView false false) {} =
      .error ⟨.typeError, "Value is not a DataView."⟩ ∧
    export_DataView (.dataView false false) { allowShared := true } =
      .error ⟨.typeError, "Value is not a DataView."⟩ :=
  ⟨rfl, rfl⟩

/-- C5 counterexample: the claim says the 64-bit converters accept bigint
inputs; in the code toNumber raises a TypeError for a bigint (the unary
plus coercion throws on bigints), so a bigint input is rejected by both
64-bit converters under default options. -/
theorem longLong_rejects_bigint_input :
    export_long_long (.bigintV 1) {} =
      .error (nativeError .typeError "Cannot convert a BigInt value to a number") ∧
    export_unsigned_long_long (.bigintV 1) {} =
      .error (nativeError .typeError "Cannot convert a BigInt value to a number") :=
  ⟨rfl, rfl⟩

/-- C5 (amended): the 64-bit converters reject bigint inputs with a
TypeError; under the default policy they coerce the input to a number,
truncate it, convert the result to an arbitrary-precision integer, and
perform the 64-bit wraparound natively on arbitrary-precision integers via
BigInt.asUintN / BigInt.asIntN, returning an arbitrary-precision integer
value. -/
theorem longLong_wraps_via_bigint_window (z : ℤ) (q : ℚ) (hq : q ≠ 0) :
    export_long_long (.bigintV z) {} =
      .error (nativeError .typeError "Cannot convert a BigInt value to a number") ∧
    export_unsigned_long_long (.bigintV z) {} =
      .error (nativeError .typeError "Cannot convert a BigInt value to a number") ∧
    export_unsigned_long_long (.num (.fin q)) {} = .ok (.bigintV (asUintN 64 (ratTrunc q))) ∧
    export_long_long (.num (.fin q)) {} = .ok (.bigintV (asIntN 64 (ratTrunc q))) := by
  refine ⟨rfl, rfl, ?_, ?_⟩
  · show createLongLongConversion 64 true (.num (.fin q)) {} = _
    unfold createLongLongConversion
    simp [toNumber, jsToNumberPrim, censorNegativeZero, jsIsNaN, jsIsFinite,
          jsStrictEq, hq, bigIntOfNumber_integerPart]
  · show createLongLongConversion 64 false (.num (.fin q)) {} = _
    unfold createLongLongConversion
    simp [toNumber, jsToNumberPrim, censorNegativeZero, jsIsNaN, jsIsFinite,
          jsStrictEq, hq, bigIntOfNumber_integerPart]

/-- Witness for the amended C5 theorem at z = 7 and q = 3/2. -/
theorem longLong_wraps_via_bigint_window_witness :
    ((mkRat 3 2 : ℚ) ≠ 0) ∧
    (export_long_long (.bigintV 7) {} =
      .error (nativeError .typeError "Cannot convert a BigInt value to a number") ∧
    export_unsigned_long_long (.bigintV 7) {} =
      .error (nativeError .typeError "Cannot convert a BigInt value to a number") ∧
    export_unsigned_long_long (.num (.fin (mkRat 3 2))) {} =
      .ok (.bigintV (asUintN 64 (ratTrunc (mkRat 3 2)))) ∧
    export_long_long (.num (.fin (mkRat 3 2))) {} =
      .ok (.bigintV (asIntN 64 (ratTrunc (mkRat 3 2))))) :=
  ⟨by decide, longLong_wraps_via_bigint_window 7 (mkRat 3 2) (by decide)⟩

/-- C6 counterexample: the claim includes the 64-bit converters in the
idempotence property, but the 64-bit converter maps the in-range integer 5
to the bigint 5 (not the number 5), and a second application to that bigint
throws a TypeError, so neither c x = x nor c (c x) = x holds for the 64-bit
family. -/
theorem longLong_breaks_idempotence :
    export_long_long (.num (.fin 5)) {} = .ok (.bigintV 5) ∧
    JSValue.bigintV 5 ≠ JSValue.num (.fin 5) ∧
    export_long_long (.bigintV 5) {} =
      .error (nativeError .typeError "Cannot convert a BigInt value to a number") :=
  ⟨rfl, by decide, rfl⟩

/-- C6 (amended): for the 8, 16 and 32 bit integer converters under default
options, an already in-range integer is returned unchanged, and applying
the converter twice also returns it unchanged (the 64-bit converters are
excluded: they return an arbitrary-precision integer and reject it on a
second application). -/
theorem intConverters_idempotent_on_inRange (b : ℕ) (u : Bool) (x : ℤ)
    (hb : b = 8 ∨ b = 16 ∨ b = 32)
    (hlo : intLowerBound b u ≤ x) (hhi : x ≤ intUpperBound b u) :
    createIntegerConversion b u (.num (.fin (x : ℚ))) {} = .ok (.num (.fin (x : ℚ))) ∧
    (createIntegerConversion b u (.num (.fin (x : ℚ))) {}).bind
      (fun v => createIntegerConversion b u v {}) = .ok (.num (.fin (x : ℚ))) := by
  have h := intConv_inRange_fix b u x hb hlo hhi
  refine ⟨h, ?_⟩
  rw [h]
  exact h

/-- Witness for the amended C6 theorem: the byte converter at x = -5. -/
theorem intConverters_idempotent_on_inRange_witness :
    ((8 : ℕ) = 8 ∨ (8 : ℕ) = 16 ∨ (8 : ℕ) = 32) ∧
    (intLowerBound 8 false ≤ (-5 : ℤ)) ∧ ((-5 : ℤ) ≤ intUpperBound 8 false) ∧
    (createIntegerConversion 8 false (.num (.fin ((-5 : ℤ) : ℚ))) {} =
        .ok (.num (.fin ((-5 : ℤ) : ℚ))) ∧
      (createIntegerConversion 8 false (.num (.fin ((-5 : ℤ) : ℚ))) {}).bind
        (fun v => createIntegerConversion 8 false v {}) =
        .ok (.num (.fin ((-5 : ℤ) : ℚ)))) :=
  ⟨Or.inl rfl, by decide, by decide,
    intConverters_idempotent_on_inRange 8 false (-5) (Or.inl rfl) (by decide) (by decide)⟩

/-- C7: the spec says a signed 8/16/32-bit converter wraps an out-of-range
input two's-complement style (byte maps 200 to -56).  In the code the wrap
path calls modulo, which calls sign, whose body reads the bare identifiers
Negative and Positive (the enum members are only reachable as Sign.Negative
and Sign.Positive), so the conversion throws a ReferenceError instead; and
even with sign repaired, the branch x - twoToTheBitLength subtracts a
bigint from a number, which throws a TypeError. -/
theorem byte_wrap_throws_referenceError :
    export_byte (.num (.fin 200)) {} =
      .error (nativeError .referenceError "Positive is not defined") :=
  rfl

/-- C8: the spec says the 8-bit unsigned converter under default options
maps 256 to 0, -1 to 255 and 255.9 to 255.  The in-range part holds (255.9,
written mkRat 2559 10, truncates to 255), but 256 and -1 take the wrap path
through modulo, whose call to sign throws a ReferenceError on the unbound
identifier Positive, so both out-of-range inputs raise instead of
wrapping. -/
theorem octet_default_policy_behaviour :
    export_octet (.num (.fin 256)) {} =
      .error (nativeError .referenceError "Positive is not defined") ∧
    export_octet (.num (.fin (-1))) {} =
      .error (nativeError .referenceError "Positive is not defined") ∧
    export_octet (.num (.fin (mkRat 2559 10))) {} = .ok (.num (.fin 255)) :=
  ⟨rfl, rfl, rfl⟩

/-- C9: the 8-bit signed converter with enforceRange set fails with a
TypeError for 200 (out of range), for NaN and for Infinity (not finite),
and succeeds with -128 for input -128.9 (written mkRat (-1289) 10):
truncation toward zero happens before the range check. -/
theorem byte_enforceRange_behaviour :
    export_byte (.num (.fin 200)) { enforceRange := true } =
      .error ⟨.typeError, "Value is outside the accepted range of -128 to 127, inclusive."⟩ ∧
    export_byte (.num .nan) { enforceRange := true } =
      .error ⟨.typeError, "Value is not a finite number."⟩ ∧
    export_byte (.num .inf) { enforceRange := true } =
      .error ⟨.typeError, "Value is not a finite number."⟩ ∧
    export_byte (.num (.fin (mkRat (-1289) 10))) { enforceRange := true } =
      .ok (.num (.fin (-128))) :=
  ⟨rfl, rfl, rfl, rfl⟩

/-- C10: every numeric converter coerces with toNumber first, and ToNumber
of a symbol throws a TypeError, so under default options (no alternate
realm) no numeric converter returns a value for a symbol input. -/
theorem numeric_converters_reject_symbol :
    export_byte .sym {} =
      .error (nativeError .typeError "Cannot convert a Symbol value to a number") ∧
    export_octet .sym {} =
      .error (nativeError .typeError "Cannot convert a Symbol value to a number") ∧
    export_short .sym {} =
      .error (nativeError .typeError "Cannot convert a Symbol value to a number") ∧
    export_unsigned_short .sym {} =
      .error (nativeError .typeError "Cannot convert a Symbol value to a number") ∧
    export_long .sym {} =
      .error (nativeError .typeError "Cannot convert a Symbol value to a number") ∧
    export_unsigned_long .sym {} =
      .error (nativeError .typeError "Cannot convert a Symbol value to a number") ∧
    export_long_long .sym {} =
      .error (nativeError .typeError "Cannot convert a Symbol value to a number") ∧
    export_unsigned_long_long .sym {} =
      .error (nativeError .typeError "Cannot convert a Symbol value to a number") ∧
    export_double .sym {} =
      .error (nativeError .typeError "Cannot convert a Symbol value to a number") ∧
    export_unrestricted_double .sym {} =
      .error (nativeError .typeError "Cannot convert a Symbol value to a number") ∧
    export_float .sym {} =
      .error (nativeError .typeError "Cannot convert a Symbol value to a number") ∧
    export_unrestricted_float .sym {} =
      .error (nativeError .typeError "Cannot convert a Symbol value to a number") :=
  ⟨rfl, rfl, rfl, rfl, rfl, rfl, rfl, rfl, rfl, rfl, rfl, rfl⟩
